import Mathlib

set_option maxRecDepth 8000

set_option exponentiation.threshold 2000

/-!
Shallow embedding of the AFL-Data-Analysis loader (`src/db_load.py`).

Python scalar values flowing out of pandas cells are modelled by `PyVal`:
`None`, `int`, `float` and `str`.  Python floats are modelled as exact
decimal fractions `num / 10 ^ exp10` (plus `nan` / `inf` / `-inf`); the
decimal literals appearing in the CSV data are represented exactly, and
binary rounding of in-range doubles is not modelled.  Double overflow
is modelled: `float()` saturates an overflowing decimal literal to an
infinity and raises `OverflowError` on an out-of-range integer.
Fallible Python code is
embedded in `Except PyError`, with an explicit constructor for each
exception class the source can raise or catch.
-/

inductive PyError where
  | valueError
  | typeError
  | overflowError
  | keyError
deriving DecidableEq, Repr

inductive PyFloat where
  /-- the decimal value `num / 10 ^ exp10` -/
  | finite (num : Int) (exp10 : Nat)
  | nan
  | inf
  | ninf
deriving DecidableEq, Repr

inductive PyVal where
  | none
  | int (n : Int)
  | float (f : PyFloat)
  | str (s : String)
deriving DecidableEq, Repr

/-- `pd.isna` on a scalar: true exactly for `None` and float NaN. -/
def pd_isna : PyVal → Bool
  | .none => true
  | .float .nan => true
  | _ => false

/-! ### Character and digit helpers -/

def isDigitChar (c : Char) : Bool := 48 ≤ c.toNat && c.toNat ≤ 57

def digitVal (c : Char) : Nat := c.toNat - 48

def digitChar (d : Nat) : Char := Char.ofNat (48 + d)

def decodeDigits (l : List Char) : Nat :=
  l.foldl (fun a c => 10 * a + digitVal c) 0

/-- ASCII whitespace stripped by `str.strip()` and by `float()` / `int()`
on strings (Python also strips some unicode space characters; the data
only contains ASCII). -/
def isPyWs (c : Char) : Bool :=
  c = ' ' || c = '\t' || c = '\n' || c = '\r' || c.toNat = 11 || c.toNat = 12

def stripChars (l : List Char) : List Char :=
  ((l.dropWhile isPyWs).reverse.dropWhile isPyWs).reverse

/-- `str.strip()` -/
def pyStrip (s : String) : String := ⟨stripChars s.data⟩

def lowerChar (c : Char) : Char :=
  if 65 ≤ c.toNat && c.toNat ≤ 90 then Char.ofNat (c.toNat + 32) else c

def splitOnChar (sep : Char) : List Char → List (List Char)
  | [] => [[]]
  | c :: r =>
    if c = sep then [] :: splitOnChar sep r
    else
      match splitOnChar sep r with
      | [] => [[c]]
      | p :: ps => (c :: p) :: ps

/-- Python `str.split(sep)` for a one-character separator. -/
def pySplit (s : String) (sep : Char) : List String :=
  (splitOnChar sep s.data).map fun l => ⟨l⟩

/-! ### `float()` literal parsing

Model of the Python `float(str)` grammar: optional surrounding whitespace,
optional sign, then `inf`/`infinity`/`nan` (case-insensitive) or a decimal
literal `[digits][.digits][(e|E)[sign]digits]` with at least one mantissa
digit.  (Underscore digit separators, accepted by CPython, are not
modelled; no claim involves them.) -/

def takeDigits (l : List Char) : List Char × List Char :=
  (l.takeWhile isDigitChar, l.dropWhile isDigitChar)

/-- Parse the mantissa: digits, an optional point and fractional digits.
Returns the value as a scaled decimal `(num, exp10)` and the rest. -/
def parseMantissa (l : List Char) : Option ((Nat × Nat) × List Char) :=
  let (ip, r1) := takeDigits l
  match r1 with
  | '.' :: r2 =>
    let (fp, r3) := takeDigits r2
    if ip.isEmpty && fp.isEmpty then Option.none
    else some ((decodeDigits ip * 10 ^ fp.length + decodeDigits fp, fp.length), r3)
  | _ =>
    if ip.isEmpty then Option.none else some ((decodeDigits ip, 0), r1)

/-- Parse an optional exponent part `(e|E)[sign]digits`. -/
def parseExponent (l : List Char) : Option (Int × List Char) :=
  match l with
  | 'e' :: r | 'E' :: r =>
    let (sgn, r1) : Int × List Char :=
      match r with
      | '+' :: t => (1, t)
      | '-' :: t => (-1, t)
      | _ => (1, r)
    let (ds, r2) := takeDigits r1
    if ds.isEmpty then Option.none else some (sgn * (decodeDigits ds : Int), r2)
  | _ => some (0, l)

/-- Scale a decimal fraction by `10 ^ e`. -/
def applyExp10 (num : Int) (exp10 : Nat) (e : Int) : PyFloat :=
  match e with
  | .ofNat m => .finite (num * 10 ^ m) exp10
  | .negSucc m => .finite num (exp10 + (m + 1))

/-- The smallest magnitude at which round-to-nearest-even of a real
value overflows an IEEE-754 double: the largest finite double is
`2 ^ 1024 - 2 ^ 971`, and magnitudes at or above the midpoint
`2 ^ 1024 - 2 ^ 970` round past it to infinity. -/
def dblOvBound : Nat := 2 ^ 1024 - 2 ^ 970

/-- String-to-float overflow: a decimal literal whose value reaches the
double overflow threshold is returned by CPython's `float()` as
`inf` / `-inf` (no exception at parse time). -/
def saturateDec : PyFloat → PyFloat
  | .finite num exp10 =>
    if dblOvBound * 10 ^ exp10 ≤ num.natAbs then
      (if num < 0 then .ninf else .inf)
    else .finite num exp10
  | f => f

def pyParseFloat (s : String) : Option PyFloat :=
  let l := stripChars s.data
  let (sign, body) : Bool × List Char :=
    match l with
    | '+' :: t => (false, t)
    | '-' :: t => (true, t)
    | _ => (false, l)
  let lw := body.map lowerChar
  if lw = "inf".data || lw = "infinity".data then
    some (if sign then .ninf else .inf)
  else if lw = "nan".data then
    some .nan
  else
    match parseMantissa body with
    | Option.none => Option.none
    | some ((m, k), r1) =>
      match parseExponent r1 with
      | Option.none => Option.none
      | some (e, r2) =>
        if r2.isEmpty then
          some (saturateDec (applyExp10 (if sign then -(m : Int) else (m : Int)) k e))
        else Option.none

/-! ### Numeric conversions -/

/-- Truncation toward zero of the decimal fraction `num / 10 ^ exp10`,
as performed by Python `int()` on a float. -/
def truncDec (num : Int) (exp10 : Nat) : Int := num.tdiv ((10 : Int) ^ exp10)

/-- Python `float(value)` on a scalar.  `float()` on an integer beyond
double range raises `OverflowError` ("int too large to convert to
float") rather than returning an infinity. -/
def py_float : PyVal → Except PyError PyFloat
  | .none => .error .typeError
  | .int n =>
    if dblOvBound ≤ n.natAbs then .error .overflowError else .ok (.finite n 0)
  | .float f => .ok f
  | .str s =>
    match pyParseFloat s with
    | some f => .ok f
    | Option.none => .error .valueError

/-- Python `int()` applied to a float: truncates toward zero; raises
`ValueError` on NaN and `OverflowError` on infinities. -/
def py_int_of_float : PyFloat → Except PyError Int
  | .finite num exp10 => .ok (truncDec num exp10)
  | .nan => .error .valueError
  | .inf => .error .overflowError
  | .ninf => .error .overflowError

/-- The `except (ValueError, TypeError)` clause of `convert_to_int`:
those two exception classes yield `None`, anything else propagates. -/
def catchVT (e : PyError) : Except PyError (Option Int) :=
  if e = .valueError || e = .typeError then .ok Option.none else .error e

/-- `convert_to_int(value)` from `db_load.py`: `None` on NA values,
otherwise `int(float(value))` with `ValueError`/`TypeError` mapped to
`None`. -/
def convert_to_int (value : PyVal) : Except PyError (Option Int) :=
  if pd_isna value then .ok Option.none
  else
    match py_float value with
    | .error e => catchVT e
    | .ok f =>
      match py_int_of_float f with
      | .error e => catchVT e
      | .ok n => .ok (some n)

/-- Python `int(value)` with no surrounding try/except, as used by the
match loader: strings must be integer literals (optionally signed, with
surrounding whitespace), floats truncate toward zero. -/
def pyParseIntLiteral (s : String) : Option Int :=
  let l := stripChars s.data
  let (sign, body) : Bool × List Char :=
    match l with
    | '+' :: t => (true, t)
    | '-' :: t => (false, t)
    | _ => (true, l)
  if !body.isEmpty && body.all isDigitChar then
    some (if sign then (decodeDigits body : Int) else -(decodeDigits body : Int))
  else Option.none

def py_int_strict : PyVal → Except PyError Int
  | .none => .error .typeError
  | .int n => .ok n
  | .float (.finite num exp10) => .ok (truncDec num exp10)
  | .float .nan => .error .valueError
  | .float .inf => .error .overflowError
  | .float .ninf => .error .overflowError
  | .str s =>
    match pyParseIntLiteral s with
    | some n => .ok n
    | Option.none => .error .valueError

/-! ### `str()` rendering -/

/-- Decimal rendering of a natural number (fuel-based so that it reduces
in the kernel). -/
def natReprAux : Nat → Nat → List Char
  | 0, _ => []
  | fuel + 1, n =>
    if n < 10 then [digitChar n]
    else natReprAux fuel (n / 10) ++ [digitChar (n % 10)]

def natRepr (n : Nat) : List Char := natReprAux (n + 1) n

def intRepr (n : Int) : List Char :=
  match n with
  | .ofNat m => natRepr m
  | .negSucc m => '-' :: natRepr (m + 1)

/-- Python `str()` on a scalar.  Finite floats are rendered from the
exact decimal model (CPython's shortest-roundtrip float repr is not
modelled further; no claim evaluates `str()` on a finite float). -/
def py_str : PyVal → String
  | .none => "None"
  | .int n => ⟨intRepr n⟩
  | .float .nan => "nan"
  | .float .inf => "inf"
  | .float .ninf => "-inf"
  | .float (.finite num exp10) =>
    ⟨intRepr num ++ 'e' :: '-' :: natRepr exp10⟩
  | .str s => s

/-! ### Date normalizer

`parse_date` converts `DD-MM-YYYY` to `YYYY-MM-DD` via
`datetime.strptime(date_str, "%d-%m-%Y").strftime("%Y-%m-%d")`.
The `strptime` format directives are modelled after CPython's `_strptime`
regular expressions: `%d` matches `3[01]|[12]\d|0[1-9]|[1-9]`, `%m`
matches `1[0-2]|0[1-9]|[1-9]`, `%Y` matches exactly four digits; the
whole string must be consumed, and the `datetime` constructor then
validates the day against the Gregorian calendar and rejects year 0.
`strftime` zero-pads all three fields (`%Y` to four digits). -/

def isLeapYear (y : Nat) : Bool :=
  y % 4 = 0 && (y % 100 ≠ 0 || y % 400 = 0)

def daysInMonth (y m : Nat) : Nat :=
  if m = 2 then (if isLeapYear y then 29 else 28)
  else if m = 4 || m = 6 || m = 9 || m = 11 then 30
  else 31

structure Ymd where
  y : Nat
  m : Nat
  d : Nat
deriving DecidableEq, Repr

/-- A one- or two-digit day/month field as matched by the `%d` / `%m`
regular expressions (`bound` is 31 for `%d`, 12 for `%m`). -/
def twoDigitField (bound : Nat) : List Char → Option Nat
  | [c] =>
    if isDigitChar c && decide (1 ≤ digitVal c) then some (digitVal c) else Option.none
  | [c1, c2] =>
    if isDigitChar c1 && isDigitChar c2 then
      let v := 10 * digitVal c1 + digitVal c2
      if 1 ≤ v && v ≤ bound then some v else Option.none
    else Option.none
  | _ => Option.none

/-- The `%Y` field: exactly four digits. -/
def yearField : List Char → Option Nat
  | [a, b, c, d] =>
    if [a, b, c, d].all isDigitChar then some (decodeDigits [a, b, c, d])
    else Option.none
  | _ => Option.none

def strptime_dmY (s : String) : Except PyError Ymd :=
  match splitOnChar '-' s.data with
  | [dp, mp, yp] =>
    match twoDigitField 31 dp, twoDigitField 12 mp, yearField yp with
    | some d, some m, some y =>
      if 1 ≤ y ∧ d ≤ daysInMonth y m then .ok ⟨y, m, d⟩
      else .error .valueError
    | _, _, _ => .error .valueError
  | _ => .error .valueError

def pad2 (n : Nat) : List Char := [digitChar (n / 10 % 10), digitChar (n % 10)]

def pad4 (n : Nat) : List Char :=
  [digitChar (n / 1000 % 10), digitChar (n / 100 % 10),
   digitChar (n / 10 % 10), digitChar (n % 10)]

def strftime_Ymd (t : Ymd) : String :=
  ⟨pad4 t.y ++ '-' :: (pad2 t.m ++ '-' :: pad2 t.d)⟩

/-- `parse_date(date_str)` from `db_load.py`. -/
def parse_date (date_str : PyVal) : Except PyError (Option String) :=
  if pd_isna date_str then .ok Option.none
  else
    match date_str with
    | .str s =>
      match strptime_dmY s with
      | .ok t => .ok (some (strftime_Ymd t))
      | .error e => .error e
    | _ => .error .typeError

/-- The `DD-MM-YYYY` rendering of a calendar date (two-digit day and
month, four-digit year). -/
def renderDmy (d m y : Nat) : String :=
  ⟨pad2 d ++ '-' :: (pad2 m ++ '-' :: pad4 y)⟩

def validDmy (d m y : Nat) : Prop :=
  1 ≤ d ∧ 1 ≤ m ∧ m ≤ 12 ∧ 1 ≤ y ∧ y ≤ 9999 ∧ d ≤ daysInMonth y m

instance (d m y : Nat) : Decidable (validDmy d m y) := by
  unfold validDmy; infer_instance

/-! ### Schema provisioning

`create_schema` is modelled as the trace of statements it executes
against the connection, in order, followed by the single `commit`. -/

inductive SchemaStmt where
  | dropTable (table : String) (ifExists : Bool) (cascade : Bool)
  | createTable (table : String) (ifNotExists : Bool)
  | createIndex (idx : String) (table : String) (cols : List String) (ifNotExists : Bool)
deriving DecidableEq, Repr

inductive DbAction where
  | exec (stmt : SchemaStmt)
  | commit
deriving DecidableEq, Repr

inductive DbType where
  | sqlite
  | postgres
deriving DecidableEq, Repr

/-- The fixed table list iterated over by both loops of `create_schema`. -/
def schemaTables : List String :=
  ["players", "player_performances", "team_lineups", "matches", "team_stats"]

def create_schema (db : DbType) : List DbAction :=
  (schemaTables.map fun t => .exec (.dropTable t true (db = .postgres)))
  ++ (schemaTables.map fun t => .exec (.createTable t true))
  ++ [.exec (.createIndex "idx_team_lineups_team_date" "team_lineups" ["team_name", "date"] true),
      .exec (.createIndex "idx_team_lineups_player" "team_lineups" ["player_name"] true),
      .exec (.createIndex "idx_matches_teams" "matches" ["team_1_name", "team_2_name"] true),
      .exec (.createIndex "idx_matches_date" "matches" ["date"] true),
      .exec (.createIndex "idx_matches_year_round" "matches" ["year", "round_num"] true),
      .exec (.createIndex "idx_team_stats_team" "team_stats" ["team"] true),
      .exec (.createIndex "idx_team_stats_year" "team_stats" ["year"] true),
      .commit]

def droppedTables (tr : List DbAction) : List String :=
  tr.filterMap fun a =>
    match a with
    | .exec (.dropTable t _ _) => some t
    | _ => Option.none

def createdTables (tr : List DbAction) : List String :=
  tr.filterMap fun a =>
    match a with
    | .exec (.createTable t _) => some t
    | _ => Option.none

def createdIndexes (tr : List DbAction) : List String :=
  tr.filterMap fun a =>
    match a with
    | .exec (.createIndex i _ _ _) => some i
    | _ => Option.none

def isCommit : DbAction → Bool
  | .commit => true
  | _ => false

def commitCount (tr : List DbAction) : Nat := (tr.filter isCommit).length

/-! ### CSV rows and DB values -/

/-- A pandas row, as the loaders see it: named cells holding scalars.
`row[key]` raises `KeyError` when the column is missing; `row.get(key)`
returns `None` instead. -/
abbrev CsvRow := List (String × PyVal)

def getField (row : CsvRow) (key : String) : Except PyError PyVal :=
  match row.lookup key with
  | some v => .ok v
  | Option.none => .error .keyError

def rowGetD (row : CsvRow) (key : String) : PyVal :=
  (row.lookup key).getD .none

/-- A value as bound into an SQL insert: an integer, a string, a raw
scalar passed through unchanged, or NULL (from a Python `None`). -/
inductive DbVal where
  | int (n : Int)
  | str (s : String)
  | raw (v : PyVal)
  | null
deriving DecidableEq, Repr

def dbOfIntOpt : Option Int → DbVal
  | some n => .int n
  | Option.none => .null

/-! ### Lineup loader

`load_team_lineups` splits each row's `players` on `;`, and inserts one
`team_lineups` row per player name with `ON CONFLICT (date, team_name,
player_name) DO NOTHING`; any exception inside the per-row try block is
logged and the loop continues with the next row. -/

structure TeamLineupEntry where
  year : Option Int
  date : PyVal
  round_num : String
  team_name : String
  player_name : String
deriving DecidableEq, Repr

def lineupKey (e : TeamLineupEntry) : PyVal × String × String :=
  (e.date, e.team_name, e.player_name)

/-- `INSERT ... ON CONFLICT (date, team_name, player_name) DO NOTHING`:
append unless a row with the same key is present. -/
def insertLineup (tbl : List TeamLineupEntry) (e : TeamLineupEntry) :
    List TeamLineupEntry :=
  if tbl.any fun x => lineupKey x = lineupKey e then tbl else tbl ++ [e]

/-- The argument tuple of the per-player `cur.execute`, evaluated left to
right: `convert_to_int(row['year'])`, `row['date']`, the precomputed
`round_num`, `str(row['team_name'])`, `player_name.strip()`. -/
def buildLineupEntry (row : CsvRow) (round_num : String) (player_name : String) :
    Except PyError TeamLineupEntry :=
  match getField row "year" with
  | .error e => .error e
  | .ok yv =>
    match convert_to_int yv with
    | .error e => .error e
    | .ok y =>
      match getField row "date" with
      | .error e => .error e
      | .ok dv =>
        match getField row "team_name" with
        | .error e => .error e
        | .ok tv =>
          .ok { year := y, date := dv, round_num := round_num,
                team_name := py_str tv, player_name := pyStrip player_name }

/-- The inner `for player_name in player_names` loop; an exception stops
the loop, leaving the inserts made so far in place. -/
def insertLineupPlayers (row : CsvRow) (round_num : String) :
    List String → List TeamLineupEntry → List TeamLineupEntry × Option PyError
  | [], tbl => (tbl, Option.none)
  | name :: rest, tbl =>
    match buildLineupEntry row round_num name with
    | .error e => (tbl, some e)
    | .ok entry => insertLineupPlayers row round_num rest (insertLineup tbl entry)

/-- The body of the per-row try block. -/
def processLineupRow (tbl : List TeamLineupEntry) (row : CsvRow) :
    List TeamLineupEntry × Option PyError :=
  match getField row "players" with
  | .error e => (tbl, some e)
  | .ok pv =>
    match getField row "round_num" with
    | .error e => (tbl, some e)
    | .ok rv =>
      insertLineupPlayers row (pyStrip (py_str rv)) (pySplit (py_str pv) ';') tbl

/-- The per-file row loop of `load_team_lineups`: rows whose processing
raised are logged (second component) and the loop continues. -/
def load_team_lineups (tbl : List TeamLineupEntry) :
    List CsvRow → List TeamLineupEntry × List CsvRow
  | [] => (tbl, [])
  | row :: rest =>
    match processLineupRow tbl row with
    | (tbl2, Option.none) => load_team_lineups tbl2 rest
    | (tbl2, some _) =>
      let (tbl3, errs) := load_team_lineups tbl2 rest
      (tbl3, row :: errs)

/-! ### Match loader

`load_matches` builds the 22-element values tuple with strict `int()`
conversions and no per-row try/except; the first exception aborts the
file before its commit, so none of that file's rows is committed, and
the exception propagates out of the per-file loop. -/

def matchNumericFields : List String :=
  ["team_1_q1_goals", "team_1_q1_behinds", "team_1_q2_goals", "team_1_q2_behinds",
   "team_1_q3_goals", "team_1_q3_behinds", "team_1_final_goals", "team_1_final_behinds",
   "team_2_q1_goals", "team_2_q1_behinds", "team_2_q2_goals", "team_2_q2_behinds",
   "team_2_q3_goals", "team_2_q3_behinds", "team_2_final_goals", "team_2_final_behinds"]

/-- The values tuple of one `matches` insert, evaluated left to right. -/
def buildMatchValues (row : CsvRow) : Except PyError (List DbVal) :=
  match getField row "year" with
  | .error e => .error e
  | .ok yv =>
    match py_int_strict yv with
    | .error e => .error e
    | .ok y =>
      match getField row "round_num" with
      | .error e => .error e
      | .ok rn =>
        match getField row "date" with
        | .error e => .error e
        | .ok dv =>
          match getField row "venue" with
          | .error e => .error e
          | .ok vv =>
            match getField row "team_1_team_name" with
            | .error e => .error e
            | .ok t1 =>
              match getField row "team_2_team_name" with
              | .error e => .error e
              | .ok t2 =>
                match matchNumericFields.mapM
                    (fun c =>
                      match getField row c with
                      | Except.error e => Except.error e
                      | Except.ok v => py_int_strict v) with
                | .error e => .error e
                | .ok nums =>
                  .ok ([.int y, .str (pyStrip (py_str rn)), .raw dv,
                        .str (py_str vv), .str (py_str t1), .str (py_str t2)]
                       ++ nums.map DbVal.int)

/-- The per-row loop over one match file: the first exception aborts the
remaining rows (and the file's commit). -/
def processMatchFile : List CsvRow → Except PyError (List (List DbVal))
  | [] => .ok []
  | row :: rest =>
    match buildMatchValues row with
    | .error e => .error e
    | .ok v =>
      match processMatchFile rest with
      | .error e => .error e
      | .ok others => .ok (v :: others)

/-- The per-file loop of `load_matches`: each successfully processed file
is committed; an exception propagates, leaving earlier commits in place
and discarding the failing file's uncommitted inserts (the connection is
closed without a commit). -/
def load_matches (committed : List (List DbVal)) :
    List (List CsvRow) → List (List DbVal) × Option PyError
  | [] => (committed, Option.none)
  | file :: rest =>
    match processMatchFile file with
    | .error e => (committed, some e)
    | .ok ins => load_matches (committed ++ ins) rest

/-- The rows a match file contributes when it processes cleanly. -/
def matchFileRows (file : List CsvRow) : List (List DbVal) :=
  match processMatchFile file with
  | .ok l => l
  | .error _ => []

/-! ### Player loader

`load_player_data` inserts one `players` row from the first
personal-details record, retrieves the generated id (`RETURNING id` on
postgres, `cur.lastrowid` on sqlite — both modelled as the next id of an
append-only table with 1-based ids), then inserts one
`player_performances` row per performance record carrying that id. -/

structure PlayerRec where
  first_name : String
  last_name : String
  born_date : Option String
  debut_date : Option String
  height : Option Int
  weight : Option Int
deriving DecidableEq, Repr

structure PerfRec where
  player_id : Int
  cols : List DbVal
deriving DecidableEq, Repr

structure PlayerDb where
  players : List PlayerRec
  perfs : List PerfRec
deriving DecidableEq, Repr

/-- The players insert: argument tuple evaluated left to right, then the
generated id is retrieved. -/
def insertPlayerRow (db : PlayerDb) (personal : CsvRow) :
    Except PyError (PlayerDb × Int) :=
  match getField personal "first_name" with
  | .error e => .error e
  | .ok fn =>
    match getField personal "last_name" with
    | .error e => .error e
    | .ok ln =>
      match getField personal "born_date" with
      | .error e => .error e
      | .ok bd =>
        match parse_date bd with
        | .error e => .error e
        | .ok bdp =>
          match getField personal "debut_date" with
          | .error e => .error e
          | .ok dd =>
            match parse_date dd with
            | .error e => .error e
            | .ok ddp =>
              match getField personal "height" with
              | .error e => .error e
              | .ok hv =>
                match convert_to_int hv with
                | .error e => .error e
                | .ok h =>
                  match getField personal "weight" with
                  | .error e => .error e
                  | .ok wv =>
                    match convert_to_int wv with
                    | .error e => .error e
                    | .ok w =>
                      .ok ({ db with players := db.players ++
                              [⟨py_str fn, py_str ln, bdp, ddp, h, w⟩] },
                           (db.players.length : Int) + 1)

def perfNumericFields : List String :=
  ["jersey_num", "kicks", "marks", "handballs", "disposals",
   "goals", "behinds", "hit_outs", "tackles", "rebound_50s",
   "inside_50s", "clearances", "clangers", "free_kicks_for",
   "free_kicks_against", "brownlow_votes", "contested_possessions",
   "uncontested_possessions", "contested_marks", "marks_inside_50",
   "one_percenters", "bounces", "goal_assist", "percentage_of_game_played"]

/-- The non-id columns of one `player_performances` insert: string casts
for team/opponent/round/result, `convert_to_int` for everything numeric
(`row.get(col)` for the statistics, defaulting to `None`). -/
def buildPerfCols (row : CsvRow) : Except PyError (List DbVal) :=
  match getField row "team" with
  | .error e => .error e
  | .ok tv =>
    match getField row "year" with
    | .error e => .error e
    | .ok yv =>
      match convert_to_int yv with
      | .error e => .error e
      | .ok y =>
        match getField row "games_played" with
        | .error e => .error e
        | .ok gv =>
          match convert_to_int gv with
          | .error e => .error e
          | .ok g =>
            match getField row "opponent" with
            | .error e => .error e
            | .ok ov =>
              match getField row "round" with
              | .error e => .error e
              | .ok rv =>
                match getField row "result" with
                | .error e => .error e
                | .ok resv =>
                  match perfNumericFields.mapM
                      (fun c => convert_to_int (rowGetD row c)) with
                  | .error e => .error e
                  | .ok nums =>
                    .ok ([.str (py_str tv), dbOfIntOpt y, dbOfIntOpt g,
                          .str (py_str ov), .str (py_str rv), .str (py_str resv)]
                         ++ nums.map dbOfIntOpt)

/-- The `for _, row in performance_df.iterrows()` loop: one performance
record per row, all carrying the generated player id; the first
exception aborts the loop (and the file, whose commit never runs). -/
def buildPerfRecs (pid : Int) : List CsvRow → Except PyError (List PerfRec)
  | [] => .ok []
  | r :: rest =>
    match buildPerfCols r with
    | .error e => .error e
    | .ok cols =>
      match buildPerfRecs pid rest with
      | .error e => .error e
      | .ok others => .ok (PerfRec.mk pid cols :: others)

/-- One personal-details record with its performance records: the player
insert, then one performance insert per record, committed together; the
first exception aborts the file with nothing committed. -/
def load_player_file (db : PlayerDb) (personal : CsvRow) (perfRows : List CsvRow) :
    Except PyError PlayerDb :=
  match insertPlayerRow db personal with
  | .error e => .error e
  | .ok (db1, pid) =>
    match buildPerfRecs pid perfRows with
    | .error e => .error e
    | .ok recs => .ok { db1 with perfs := db1.perfs ++ recs }

/-! ### Truncation lemmas -/

instance exceptDecEq {e a : Type} [DecidableEq e] [DecidableEq a] :
    DecidableEq (Except e a)
  | .error x, .error y =>
    if h : x = y then isTrue (by rw [h]) else isFalse (fun hh => by cases hh; exact h rfl)
  | .error _, .ok _ => isFalse (fun hh => by cases hh)
  | .ok _, .error _ => isFalse (fun hh => by cases hh)
  | .ok x, .ok y =>
    if h : x = y then isTrue (by rw [h]) else isFalse (fun hh => by cases hh; exact h rfl)

theorem truncDec_eq_floor (num : Int) (k : Nat) (h : 0 ≤ num) :
    truncDec num k = ⌊(num : ℚ) / (10 : ℚ) ^ k⌋ := by
  have hd : ((10 : ℚ) ^ k) = ((10 ^ k : ℕ) : ℚ) := by push_cast; ring
  rw [truncDec, hd, Rat.floor_intCast_div_natCast]
  rw [Int.tdiv_eq_ediv h (by positivity)]
  norm_num

theorem truncDec_eq_ceil (num : Int) (k : Nat) (h : num ≤ 0) :
    truncDec num k = ⌈(num : ℚ) / (10 : ℚ) ^ k⌉ := by
  have h1 : truncDec num k = -truncDec (-num) k := by
    simp [truncDec, Int.neg_tdiv]
  have h2 : truncDec (-num) k = ⌊((-num : Int) : ℚ) / ((10 : ℚ) ^ k)⌋ :=
    truncDec_eq_floor (-num) k (by omega)
  rw [h1, h2, show (((-num : Int)) : ℚ) = -(num : ℚ) by push_cast; ring,
    neg_div, Int.floor_neg]
  omega

/-! ### Claims -/

/-- C1 counterexample: `create_schema` creates seven indexes, not six,
so the claim's index count is false on the sqlite path. -/
theorem afl_C1_cex :
    ¬ (createdIndexes (create_schema DbType.sqlite)).length = 6 := by decide

/-- C1 (amended): schema provisioning drops (IF EXISTS) and recreates
the five tables in the fixed order players, player_performances,
team_lineups, matches, team_stats — players before player_performances —
then creates SEVEN supporting indexes, and issues exactly one commit,
at the end of the trace. -/
theorem afl_C1 (db : DbType) :
    droppedTables (create_schema db) = schemaTables ∧
    createdTables (create_schema db) = schemaTables ∧
    createdIndexes (create_schema db) =
      ["idx_team_lineups_team_date", "idx_team_lineups_player",
       "idx_matches_teams", "idx_matches_date", "idx_matches_year_round",
       "idx_team_stats_team", "idx_team_stats_year"] ∧
    commitCount (create_schema db) = 1 ∧
    (create_schema db).getLast? = some DbAction.commit := by
  cases db <;> exact ⟨rfl, rfl, rfl, rfl, rfl⟩

/-- C2 counterexample: `convert_to_int("inf")` parses the string as an
infinite float, and `int(inf)` raises `OverflowError`, which the
`except (ValueError, TypeError)` clause does not catch — the function is
not total. -/
theorem afl_C2_cex :
    convert_to_int (PyVal.str "inf") = Except.error PyError.overflowError := by
  decide

/-- C2 (amended): `convert_to_int` returns an integer or the absence
value — and never raises — exactly for the inputs where `float()`
neither yields an infinity nor itself raises `OverflowError`: infinite
floats, strings such as "inf" or "1e400" whose value overflows to an
infinity, and integers beyond double range all make the uncaught
`OverflowError` escape; every other input yields integer-or-absence. -/
theorem afl_C2 (v : PyVal) :
    (convert_to_int v).isOk = true ↔
      py_float v ≠ .ok PyFloat.inf ∧ py_float v ≠ .ok PyFloat.ninf ∧
      py_float v ≠ .error PyError.overflowError := by
  cases v with
  | none => simp [convert_to_int, pd_isna, py_float, Except.isOk, Except.toBool]
  | int n =>
    by_cases hb : dblOvBound ≤ n.natAbs
    · simp [convert_to_int, pd_isna, py_float, hb, catchVT, Except.isOk, Except.toBool]
    · simp [convert_to_int, pd_isna, py_float, hb, py_int_of_float, Except.isOk,
        Except.toBool]
  | float f =>
    cases f <;>
      simp [convert_to_int, pd_isna, py_float, py_int_of_float, catchVT,
        Except.isOk, Except.toBool]
  | str s =>
    cases hp : pyParseFloat s with
    | none => simp [convert_to_int, pd_isna, py_float, hp, catchVT, Except.isOk,
        Except.toBool]
    | some f =>
      cases f <;>
        simp [convert_to_int, pd_isna, py_float, hp, py_int_of_float, catchVT,
          Except.isOk, Except.toBool]

theorem afl_C2_witness : (convert_to_int (PyVal.str "abc")).isOk = true :=
  (afl_C2 (PyVal.str "abc")).mpr (by decide)

/-- C3: `convert_to_int` maps None, NaN, 3, 3.0, "3", "3.0", "abc", ""
to absence, absence, 3, 3, 3, 3, absence, absence respectively. -/
theorem afl_C3 :
    convert_to_int PyVal.none = .ok Option.none ∧
    convert_to_int (PyVal.float .nan) = .ok Option.none ∧
    convert_to_int (PyVal.int 3) = .ok (some 3) ∧
    convert_to_int (PyVal.float (.finite 30 1)) = .ok (some 3) ∧
    convert_to_int (PyVal.str "3") = .ok (some 3) ∧
    convert_to_int (PyVal.str "3.0") = .ok (some 3) ∧
    convert_to_int (PyVal.str "abc") = .ok Option.none ∧
    convert_to_int (PyVal.str "") = .ok Option.none := by
  refine ⟨rfl, rfl, rfl, by decide, by decide, by decide, by decide, by decide⟩

/-- C10: `convert_to_int` truncates toward zero: a finite float (or a
string parsing to one) with value `num / 10 ^ k` yields exactly
`truncDec num k`, which is the floor of the value when it is
nonnegative and its ceiling when it is nonpositive (e.g. 3.9 and "3.9"
yield 3, and -3.9 yields -3). -/
theorem afl_C10 (num : Int) (k : Nat) (s : String) :
    convert_to_int (PyVal.float (.finite num k)) = .ok (some (truncDec num k)) ∧
    (pyParseFloat s = some (.finite num k) →
      convert_to_int (PyVal.str s) = .ok (some (truncDec num k))) ∧
    (0 ≤ num → truncDec num k = ⌊(num : ℚ) / (10 : ℚ) ^ k⌋) ∧
    (num ≤ 0 → truncDec num k = ⌈(num : ℚ) / (10 : ℚ) ^ k⌉) := by
  refine ⟨rfl, fun h => ?_, truncDec_eq_floor num k, truncDec_eq_ceil num k⟩
  simp [convert_to_int, pd_isna, py_float, h, py_int_of_float]

theorem afl_C10_witness :
    convert_to_int (PyVal.str "3.9") = .ok (some 3) ∧
    convert_to_int (PyVal.float (.finite (-39) 1)) = .ok (some (-3)) :=
  ⟨((afl_C10 39 1 "3.9").2.1 (by decide)).trans (by decide),
   (afl_C10 (-39) 1 "x").1.trans (by decide)⟩

/-! ### Digit and split lemmas for the date normalizer -/

theorem digitVal_digitChar (d : Nat) (h : d < 10) : digitVal (digitChar d) = d := by
  interval_cases d <;> decide

theorem isDigitChar_digitChar (d : Nat) (h : d < 10) :
    isDigitChar (digitChar d) = true := by
  interval_cases d <;> decide

theorem digitChar_ne_dash (d : Nat) (h : d < 10) : digitChar d ≠ '-' := by
  interval_cases d <;> decide

theorem splitOnChar_noSep (sep : Char) (l : List Char) (h : ∀ c ∈ l, c ≠ sep) :
    splitOnChar sep l = [l] := by
  induction l with
  | nil => rfl
  | cons c r ih =>
    have hc : c ≠ sep := h c (List.mem_cons_self c r)
    simp only [splitOnChar, if_neg hc, ih fun x hx => h x (List.mem_cons_of_mem c hx)]

theorem splitOnChar_append (sep : Char) (a r : List Char) (h : ∀ c ∈ a, c ≠ sep) :
    splitOnChar sep (a ++ sep :: r) = a :: splitOnChar sep r := by
  induction a with
  | nil => simp [splitOnChar]
  | cons c t ih =>
    have hc : c ≠ sep := h c (List.mem_cons_self c t)
    have ht := ih fun x hx => h x (List.mem_cons_of_mem c hx)
    simp only [List.cons_append, splitOnChar, if_neg hc]
    rw [show t.append (sep :: r) = t ++ sep :: r from rfl, ht]

theorem twoDigitField_digits (bound a b : Nat) (ha : a < 10) (hb : b < 10)
    (h1 : 1 ≤ 10 * a + b) (h2 : 10 * a + b ≤ bound) :
    twoDigitField bound [digitChar a, digitChar b] = some (10 * a + b) := by
  simp [twoDigitField, isDigitChar_digitChar a ha, isDigitChar_digitChar b hb,
    digitVal_digitChar a ha, digitVal_digitChar b hb, h1, h2]

theorem twoDigitField_pad2 (bound n : Nat) (h1 : 1 ≤ n) (h2 : n ≤ bound)
    (h3 : bound ≤ 99) : twoDigitField bound (pad2 n) = some n := by
  have hkey := twoDigitField_digits bound (n / 10 % 10) (n % 10)
    (by omega) (by omega) (by omega) (by omega)
  have hn : 10 * (n / 10 % 10) + n % 10 = n := by omega
  rw [hn] at hkey
  exact hkey

theorem yearField_pad4 (y : Nat) (h : y ≤ 9999) : yearField (pad4 y) = some y := by
  have h1 := isDigitChar_digitChar (y / 1000 % 10) (by omega)
  have h2 := isDigitChar_digitChar (y / 100 % 10) (by omega)
  have h3 := isDigitChar_digitChar (y / 10 % 10) (by omega)
  have h4 := isDigitChar_digitChar (y % 10) (by omega)
  have e1 := digitVal_digitChar (y / 1000 % 10) (by omega)
  have e2 := digitVal_digitChar (y / 100 % 10) (by omega)
  have e3 := digitVal_digitChar (y / 10 % 10) (by omega)
  have e4 := digitVal_digitChar (y % 10) (by omega)
  simp [yearField, pad4, decodeDigits, h1, h2, h3, h4, e1, e2, e3, e4]
  omega

theorem daysInMonth_le_31 (y m : Nat) : daysInMonth y m ≤ 31 := by
  unfold daysInMonth
  split_ifs <;> omega

theorem pad2_no_dash (n : Nat) : ∀ c ∈ pad2 n, c ≠ '-' := by
  intro c hc
  simp only [pad2, List.mem_cons, List.mem_singleton, List.not_mem_nil, or_false] at hc
  rcases hc with rfl | rfl
  · exact digitChar_ne_dash _ (Nat.mod_lt _ (by omega))
  · exact digitChar_ne_dash _ (Nat.mod_lt _ (by omega))

theorem strptime_renderDmy (d m y : Nat) (h : validDmy d m y) :
    strptime_dmY (renderDmy d m y) = .ok ⟨y, m, d⟩ := by
  obtain ⟨h1, h2, h3, h4, h5, h6⟩ := h
  have hsplit : splitOnChar '-' (renderDmy d m y).data = [pad2 d, pad2 m, pad4 y] := by
    show splitOnChar '-' (pad2 d ++ '-' :: (pad2 m ++ '-' :: pad4 y)) = _
    rw [splitOnChar_append '-' (pad2 d) _ (pad2_no_dash d),
      splitOnChar_append '-' (pad2 m) _ (pad2_no_dash m),
      splitOnChar_noSep '-' (pad4 y) ?_]
    intro c hc
    simp only [pad4, List.mem_cons, List.mem_singleton, List.not_mem_nil, or_false] at hc
    rcases hc with rfl | rfl | rfl | rfl <;>
      exact digitChar_ne_dash _ (Nat.mod_lt _ (by omega))
  have hd : twoDigitField 31 (pad2 d) = some d :=
    twoDigitField_pad2 31 d h1 (le_trans h6 (daysInMonth_le_31 y m)) (by omega)
  have hm : twoDigitField 12 (pad2 m) = some m := twoDigitField_pad2 12 m h2 h3 (by omega)
  have hy : yearField (pad4 y) = some y := yearField_pad4 y h5
  simp [strptime_dmY, hsplit, hd, hm, hy, h4, h6]

/-- C4: the date normalizer maps the missing-value markers to the
absence value, and every valid `DD-MM-YYYY` string to the ISO
`YYYY-MM-DD` rendering of the same calendar date. -/
theorem afl_C4 :
    parse_date PyVal.none = .ok Option.none ∧
    parse_date (PyVal.float .nan) = .ok Option.none ∧
    ∀ d m y, validDmy d m y →
      parse_date (PyVal.str (renderDmy d m y)) = .ok (some (strftime_Ymd ⟨y, m, d⟩)) := by
  refine ⟨rfl, rfl, fun d m y h => ?_⟩
  simp [parse_date, pd_isna, strptime_renderDmy d m y h]

theorem afl_C4_witness :
    parse_date (PyVal.str (renderDmy 3 4 2020)) =
      .ok (some (strftime_Ymd ⟨2020, 4, 3⟩)) :=
  afl_C4.2.2 3 4 2020 (by decide)

/-! ### Lineup loader lemmas -/

/-- Membership of a conflict key in the lineup table. -/
def keyMem (tbl : List TeamLineupEntry) (e : TeamLineupEntry) : Bool :=
  tbl.any fun x => lineupKey x = lineupKey e

theorem insertLineup_eq (tbl : List TeamLineupEntry) (e : TeamLineupEntry) :
    insertLineup tbl e = if keyMem tbl e then tbl else tbl ++ [e] := rfl

theorem keyMem_append (a b : List TeamLineupEntry) (e : TeamLineupEntry) :
    keyMem (a ++ b) e = (keyMem a e || keyMem b e) := List.any_append

theorem keyMem_insertLineup_self (tbl : List TeamLineupEntry) (e : TeamLineupEntry) :
    keyMem (insertLineup tbl e) e = true := by
  rw [insertLineup_eq]
  cases hk : keyMem tbl e with
  | true => simpa using hk
  | false => simp [keyMem_append, keyMem]

theorem insertLineup_of_keyMem (tbl : List TeamLineupEntry) (e : TeamLineupEntry)
    (h : keyMem tbl e = true) : insertLineup tbl e = tbl := by
  rw [insertLineup_eq, h, if_pos rfl]

theorem insertLineup_growth (tbl : List TeamLineupEntry) (e : TeamLineupEntry) :
    ∃ s, insertLineup tbl e = tbl ++ s := by
  rw [insertLineup_eq]
  cases keyMem tbl e
  · exact ⟨[e], rfl⟩
  · exact ⟨[], by simp⟩

theorem insertLineupPlayers_growth (row : CsvRow) (rd : String) :
    ∀ (names : List String) (tbl : List TeamLineupEntry),
      ∃ s, (insertLineupPlayers row rd names tbl).1 = tbl ++ s := by
  intro names
  induction names with
  | nil => exact fun tbl => ⟨[], by simp [insertLineupPlayers]⟩
  | cons name rest ih =>
    intro tbl
    cases hb : buildLineupEntry row rd name with
    | error e => exact ⟨[], by simp [insertLineupPlayers, hb]⟩
    | ok entry =>
      obtain ⟨s1, hs1⟩ := insertLineup_growth tbl entry
      obtain ⟨s2, hs2⟩ := ih (insertLineup tbl entry)
      refine ⟨s1 ++ s2, ?_⟩
      simp only [insertLineupPlayers, hb]
      rw [hs2, hs1, List.append_assoc]

theorem processLineupRow_growth (tbl : List TeamLineupEntry) (row : CsvRow) :
    ∃ s, (processLineupRow tbl row).1 = tbl ++ s := by
  unfold processLineupRow
  cases getField row "players" with
  | error e => exact ⟨[], by simp⟩
  | ok pv =>
    cases getField row "round_num" with
    | error e => exact ⟨[], by simp⟩
    | ok rv => exact insertLineupPlayers_growth row _ _ tbl

/-- Only the produced table matters for how the loop continues: both
match arms of `load_team_lineups` proceed with the produced table. -/
theorem load_team_lineups_step (tbl : List TeamLineupEntry) (row : CsvRow)
    (rest : List CsvRow) :
    (load_team_lineups tbl (row :: rest)).1 =
    (load_team_lineups (processLineupRow tbl row).1 rest).1 := by
  cases hp : processLineupRow tbl row with
  | mk t2 err =>
    cases err with
    | none => simp [load_team_lineups, hp]
    | some e => simp [load_team_lineups, hp]

theorem load_team_lineups_growth :
    ∀ (rows : List CsvRow) (tbl : List TeamLineupEntry),
      ∃ s, (load_team_lineups tbl rows).1 = tbl ++ s := by
  intro rows
  induction rows with
  | nil => exact fun tbl => ⟨[], by simp [load_team_lineups]⟩
  | cons row rest ih =>
    intro tbl
    obtain ⟨s1, hs1⟩ := processLineupRow_growth tbl row
    obtain ⟨s2, hs2⟩ := ih (processLineupRow tbl row).1
    refine ⟨s1 ++ s2, ?_⟩
    rw [load_team_lineups_step tbl row rest, hs2, hs1, List.append_assoc]

/-- Re-running the player loop over a table that already contains
everything the first run inserted (plus anything more) changes
nothing. -/
theorem insertLineupPlayers_covers (row : CsvRow) (rd : String) :
    ∀ (names : List String) (tbl s : List TeamLineupEntry),
      (insertLineupPlayers row rd names
        ((insertLineupPlayers row rd names tbl).1 ++ s)).1 =
      (insertLineupPlayers row rd names tbl).1 ++ s := by
  intro names
  induction names with
  | nil => intro tbl s; rfl
  | cons name rest ih =>
    intro tbl s
    cases hb : buildLineupEntry row rd name with
    | error e => simp [insertLineupPlayers, hb]
    | ok entry =>
      simp only [insertLineupPlayers, hb]
      obtain ⟨s2, hs2⟩ := insertLineupPlayers_growth row rd rest (insertLineup tbl entry)
      have hkey : keyMem ((insertLineupPlayers row rd rest (insertLineup tbl entry)).1 ++ s)
          entry = true := by
        rw [hs2, List.append_assoc, keyMem_append, keyMem_insertLineup_self]
        rfl
      rw [insertLineup_of_keyMem _ _ hkey]
      exact ih (insertLineup tbl entry) s

theorem processLineupRow_covers (tbl s : List TeamLineupEntry) (row : CsvRow) :
    (processLineupRow ((processLineupRow tbl row).1 ++ s) row).1 =
    (processLineupRow tbl row).1 ++ s := by
  unfold processLineupRow
  cases getField row "players" with
  | error e => rfl
  | ok pv =>
    cases getField row "round_num" with
    | error e => rfl
    | ok rv => exact insertLineupPlayers_covers row _ _ tbl s

/-- The lineup row of the C5 scenario. -/
def lineupRowEF : CsvRow :=
  [("year", PyVal.int 2012), ("date", PyVal.str "2012-09-07 19:50"),
   ("round_num", PyVal.str "EF"), ("team_name", PyVal.str "Hawks"),
   ("players", PyVal.str "A Smith; B Jones; C Lee")]

def lineupEntryEF (name : String) : TeamLineupEntry :=
  ⟨some 2012, PyVal.str "2012-09-07 19:50", "EF", "Hawks", name⟩

/-- C5: a lineup row whose roster is "A Smith; B Jones; C Lee" with
round_num "EF" yields exactly three entries, names trimmed, round label
kept as free text; and re-loading any lineup file over the table it
produced inserts no additional rows (the unique-key ignore makes reload
idempotent). -/
theorem afl_C5 :
    load_team_lineups [] [lineupRowEF] =
      ([lineupEntryEF "A Smith", lineupEntryEF "B Jones", lineupEntryEF "C Lee"], []) ∧
    ∀ (tbl : List TeamLineupEntry) (rows : List CsvRow),
      (load_team_lineups (load_team_lineups tbl rows).1 rows).1 =
        (load_team_lineups tbl rows).1 := by
  refine ⟨by decide, ?_⟩
  intro tbl rows
  induction rows generalizing tbl with
  | nil => rfl
  | cons row rest ih =>
    rw [load_team_lineups_step tbl row rest]
    obtain ⟨s, hs⟩ := load_team_lineups_growth rest (processLineupRow tbl row).1
    rw [load_team_lineups_step _ row rest, hs, processLineupRow_covers tbl s row, ← hs,
      ih (processLineupRow tbl row).1]

/-- A well-formed lineup row before the malformed one. -/
def lineupRow1 : CsvRow :=
  [("year", PyVal.int 2023), ("date", PyVal.str "2023-04-01 13:45"),
   ("round_num", PyVal.str "3"), ("team_name", PyVal.str "Cats"),
   ("players", PyVal.str "D One; E Two")]

/-- A lineup row with the `team_name` column missing: building its
insert arguments raises `KeyError`. -/
def lineupRowBad : CsvRow :=
  [("year", PyVal.int 2023), ("date", PyVal.str "2023-04-01 13:45"),
   ("round_num", PyVal.str "3"), ("players", PyVal.str "F Three")]

/-- A well-formed lineup row after the malformed one. -/
def lineupRow3 : CsvRow :=
  [("year", PyVal.int 2023), ("date", PyVal.str "2023-04-02 14:10"),
   ("round_num", PyVal.str "3"), ("team_name", PyVal.str "Dogs"),
   ("players", PyVal.str "G Four")]

/-- C6: the lineup loader isolates failures per row.  A file whose second
row is missing `team_name` still inserts rows 1 and 3 and logs row 2;
and in general, a row whose processing raises is logged and the loop
continues with the remaining rows from the partial table — no exception
escapes the file-level call (the loader yields a table and an error log
on every input). -/
theorem afl_C6 :
    load_team_lineups [] [lineupRow1, lineupRowBad, lineupRow3] =
      ([⟨some 2023, PyVal.str "2023-04-01 13:45", "3", "Cats", "D One"⟩,
        ⟨some 2023, PyVal.str "2023-04-01 13:45", "3", "Cats", "E Two"⟩,
        ⟨some 2023, PyVal.str "2023-04-02 14:10", "3", "Dogs", "G Four"⟩],
       [lineupRowBad]) ∧
    ∀ (tbl t2 : List TeamLineupEntry) (row : CsvRow) (rest : List CsvRow)
      (er : PyError),
      processLineupRow tbl row = (t2, some er) →
      load_team_lineups tbl (row :: rest) =
        ((load_team_lineups t2 rest).1, row :: (load_team_lineups t2 rest).2) := by
  refine ⟨by decide, ?_⟩
  intro tbl t2 row rest er h
  simp [load_team_lineups, h]

theorem afl_C6_witness :
    load_team_lineups [] [lineupRowBad] = ([], [lineupRowBad]) :=
  (afl_C6.2 [] [] lineupRowBad [] PyError.keyError (by decide)).trans rfl

/-! ### Match loader theorems -/

/-- A fully well-formed match row (all 16 quarter/final fields present
and integral). -/
def matchRowOk : CsvRow :=
  [("year", PyVal.int 2021), ("round_num", PyVal.str "1"),
   ("date", PyVal.str "2021-03-18 19:25"), ("venue", PyVal.str "MCG"),
   ("team_1_team_name", PyVal.str "Richmond"), ("team_2_team_name", PyVal.str "Carlton")]
  ++ matchNumericFields.map fun c => (c, PyVal.int 8)

/-- A match row whose `team_1_q1_goals` is the non-numeric string
"abc". -/
def matchRowBad : CsvRow :=
  [("year", PyVal.int 2021), ("round_num", PyVal.str "1"),
   ("date", PyVal.str "2021-03-18 19:25"), ("venue", PyVal.str "MCG"),
   ("team_1_team_name", PyVal.str "Richmond"), ("team_2_team_name", PyVal.str "Carlton"),
   ("team_1_q1_goals", PyVal.str "abc")]
  ++ matchNumericFields.map fun c => (c, PyVal.int 8)

/-- A match row whose `team_1_q1_goals` is missing (pandas NaN). -/
def matchRowNan : CsvRow :=
  [("year", PyVal.int 2021), ("round_num", PyVal.str "1"),
   ("date", PyVal.str "2021-03-18 19:25"), ("venue", PyVal.str "MCG"),
   ("team_1_team_name", PyVal.str "Richmond"), ("team_2_team_name", PyVal.str "Carlton"),
   ("team_1_q1_goals", PyVal.float .nan)]
  ++ matchNumericFields.map fun c => (c, PyVal.int 8)

theorem load_matches_error_after (f : List CsvRow) (rest : List (List CsvRow))
    (e : PyError) (hf : processMatchFile f = .error e) :
    ∀ (pre : List (List CsvRow)) (committed : List (List DbVal)),
      (∀ g ∈ pre, (processMatchFile g).isOk = true) →
      load_matches committed (pre ++ f :: rest) =
        (committed ++ (pre.map matchFileRows).flatten, some e) := by
  intro pre
  induction pre with
  | nil =>
    intro committed h0
    simp [load_matches, hf]
  | cons g pre2 ih =>
    intro committed hpre
    have hg := hpre g (List.mem_cons_self g pre2)
    cases hgg : processMatchFile g with
    | error e2 =>
      rw [hgg] at hg
      simp [Except.isOk, Except.toBool] at hg
    | ok ins =>
      have hstep : load_matches committed ((g :: pre2) ++ f :: rest) =
          load_matches (committed ++ ins) (pre2 ++ f :: rest) := by
        simp [load_matches, hgg]
      rw [hstep, ih (committed ++ ins) fun x hx => hpre x (List.mem_cons_of_mem g hx)]
      have hrow : matchFileRows g = ins := by simp [matchFileRows, hgg]
      simp [hrow, List.append_assoc]

/-- C7: a non-numeric (or missing) required numeric field raises in the
match loader and is not caught per row: loading a run of files where
every file before `f` processes cleanly and `f` raises commits exactly
the earlier files' rows, none of `f`'s rows, and propagates the
exception. -/
theorem afl_C7 :
    buildMatchValues matchRowBad = .error PyError.valueError ∧
    buildMatchValues matchRowNan = .error PyError.valueError ∧
    ∀ (committed : List (List DbVal)) (pre : List (List CsvRow))
      (f : List CsvRow) (rest : List (List CsvRow)) (e : PyError),
      (∀ g ∈ pre, (processMatchFile g).isOk = true) →
      processMatchFile f = .error e →
      load_matches committed (pre ++ f :: rest) =
        (committed ++ (pre.map matchFileRows).flatten, some e) := by
  refine ⟨by decide, by decide, fun committed pre f rest e hpre hf => ?_⟩
  exact load_matches_error_after f rest e hf pre committed hpre

theorem afl_C7_witness :
    load_matches [] [[matchRowOk], [matchRowOk, matchRowBad], [matchRowOk]] =
      (matchFileRows [matchRowOk], some PyError.valueError) :=
  (afl_C7.2.2 [] [[matchRowOk]] [matchRowOk, matchRowBad] [[matchRowOk]]
    PyError.valueError (by decide) (by decide)).trans (by decide)

/-! ### Player loader theorems -/

theorem insertPlayerRow_spec (db : PlayerDb) (personal : CsvRow)
    (db1 : PlayerDb) (pid : Int)
    (h : insertPlayerRow db personal = .ok (db1, pid)) :
    (∃ pr, db1.players = db.players ++ [pr]) ∧
    db1.perfs = db.perfs ∧ pid = (db.players.length : Int) + 1 := by
  unfold insertPlayerRow at h
  cases h1 : getField personal "first_name" with
  | error e => simp only [h1] at h; cases h
  | ok fn =>
  simp only [h1] at h
  cases h2 : getField personal "last_name" with
  | error e => simp only [h2] at h; cases h
  | ok ln =>
  simp only [h2] at h
  cases h3 : getField personal "born_date" with
  | error e => simp only [h3] at h; cases h
  | ok bd =>
  simp only [h3] at h
  cases h4 : parse_date bd with
  | error e => simp only [h4] at h; cases h
  | ok bdp =>
  simp only [h4] at h
  cases h5 : getField personal "debut_date" with
  | error e => simp only [h5] at h; cases h
  | ok dd =>
  simp only [h5] at h
  cases h6 : parse_date dd with
  | error e => simp only [h6] at h; cases h
  | ok ddp =>
  simp only [h6] at h
  cases h7 : getField personal "height" with
  | error e => simp only [h7] at h; cases h
  | ok hv =>
  simp only [h7] at h
  cases h8 : convert_to_int hv with
  | error e => simp only [h8] at h; cases h
  | ok ht =>
  simp only [h8] at h
  cases h9 : getField personal "weight" with
  | error e => simp only [h9] at h; cases h
  | ok wv =>
  simp only [h9] at h
  cases h10 : convert_to_int wv with
  | error e => simp only [h10] at h; cases h
  | ok w =>
  simp only [h10, Except.ok.injEq, Prod.mk.injEq] at h
  obtain ⟨hdb, hpid⟩ := h
  subst hdb
  subst hpid
  exact ⟨⟨_, rfl⟩, rfl, rfl⟩

/-- C8: on success, loading one personal-details record with three
performance records appends exactly one Player row and exactly three
PlayerPerformance rows, all carrying the id generated for that
just-inserted player. -/
theorem afl_C8 (db : PlayerDb) (personal p1 p2 p3 : CsvRow) (db2 : PlayerDb)
    (h : load_player_file db personal [p1, p2, p3] = .ok db2) :
    ∃ pr c1 c2 c3,
      db2.players = db.players ++ [pr] ∧
      db2.perfs = db.perfs ++
        [⟨(db.players.length : Int) + 1, c1⟩, ⟨(db.players.length : Int) + 1, c2⟩,
         ⟨(db.players.length : Int) + 1, c3⟩] := by
  unfold load_player_file at h
  cases hins : insertPlayerRow db personal with
  | error e => simp only [hins] at h; cases h
  | ok pr1 =>
  obtain ⟨db1, pid⟩ := pr1
  simp only [hins] at h
  obtain ⟨⟨pr, hpr⟩, hperfs, hpid⟩ := insertPlayerRow_spec db personal db1 pid hins
  cases hrecs : buildPerfRecs pid [p1, p2, p3] with
  | error e => simp only [hrecs] at h; cases h
  | ok recs =>
  simp only [hrecs, Except.ok.injEq] at h
  unfold buildPerfRecs at hrecs
  cases hc1 : buildPerfCols p1 with
  | error e => simp only [hc1] at hrecs; cases hrecs
  | ok c1 =>
  simp only [hc1] at hrecs
  unfold buildPerfRecs at hrecs
  cases hc2 : buildPerfCols p2 with
  | error e => simp only [hc2] at hrecs; cases hrecs
  | ok c2 =>
  simp only [hc2] at hrecs
  unfold buildPerfRecs at hrecs
  cases hc3 : buildPerfCols p3 with
  | error e => simp only [hc3] at hrecs; cases hrecs
  | ok c3 =>
  simp only [hc3, buildPerfRecs, Except.ok.injEq] at hrecs
  subst hrecs
  subst h
  subst hpid
  exact ⟨pr, c1, c2, c3, hpr, by rw [hperfs]⟩

def personalEx : CsvRow :=
  [("first_name", PyVal.str "John"), ("last_name", PyVal.str "Coleman"),
   ("born_date", PyVal.str "23-11-1928"), ("debut_date", PyVal.str "19-04-1949"),
   ("height", PyVal.str "183.0"), ("weight", PyVal.int 79)]

def perfRowEx (opp : String) : CsvRow :=
  [("team", PyVal.str "Essendon"), ("year", PyVal.int 1949),
   ("games_played", PyVal.float .nan), ("opponent", PyVal.str opp),
   ("round", PyVal.str "R1"), ("result", PyVal.str "W"),
   ("kicks", PyVal.int 10)]

def perfColsEx (opp : String) : List DbVal :=
  [DbVal.str "Essendon", DbVal.int 1949, DbVal.null, DbVal.str opp,
   DbVal.str "R1", DbVal.str "W", DbVal.null, DbVal.int 10]
  ++ List.replicate 22 DbVal.null

def playerRecEx : PlayerRec :=
  ⟨"John", "Coleman", some "1928-11-23", some "1949-04-19", some 183, some 79⟩

def dbEx : PlayerDb :=
  ⟨[playerRecEx], [⟨1, perfColsEx "A"⟩, ⟨1, perfColsEx "B"⟩, ⟨1, perfColsEx "C"⟩]⟩

theorem afl_C8_witness :
    ∃ pr c1 c2 c3,
      dbEx.players = (PlayerDb.mk [] []).players ++ [pr] ∧
      dbEx.perfs = (PlayerDb.mk [] []).perfs ++
        [⟨((PlayerDb.mk [] []).players.length : Int) + 1, c1⟩,
         ⟨((PlayerDb.mk [] []).players.length : Int) + 1, c2⟩,
         ⟨((PlayerDb.mk [] []).players.length : Int) + 1, c3⟩] :=
  afl_C8 (PlayerDb.mk [] []) personalEx (perfRowEx "A") (perfRowEx "B")
    (perfRowEx "C") dbEx (by decide)

/-- C9: on success, a performance insert's values are exactly the string
casts of team/opponent/round/result (so a NaN result or team is stored
as the literal string "nan", which is not NULL) together with the
lenient integer-or-absence coercions of year, games_played and every
statistical column. -/
theorem afl_C9 (row : CsvRow) (cols : List DbVal)
    (h : buildPerfCols row = .ok cols) :
    ∃ tv yv y gv g ov rv resv nums,
      getField row "team" = .ok tv ∧
      getField row "year" = .ok yv ∧ convert_to_int yv = .ok y ∧
      getField row "games_played" = .ok gv ∧ convert_to_int gv = .ok g ∧
      getField row "opponent" = .ok ov ∧
      getField row "round" = .ok rv ∧
      getField row "result" = .ok resv ∧
      perfNumericFields.mapM (fun c => convert_to_int (rowGetD row c)) = .ok nums ∧
      cols = [DbVal.str (py_str tv), dbOfIntOpt y, dbOfIntOpt g,
              DbVal.str (py_str ov), DbVal.str (py_str rv), DbVal.str (py_str resv)]
             ++ nums.map dbOfIntOpt ∧
      py_str (PyVal.float .nan) = "nan" ∧ DbVal.str "nan" ≠ DbVal.null := by
  unfold buildPerfCols at h
  cases h1 : getField row "team" with
  | error e => simp only [h1] at h; cases h
  | ok tv =>
  simp only [h1] at h
  cases h2 : getField row "year" with
  | error e => simp only [h2] at h; cases h
  | ok yv =>
  simp only [h2] at h
  cases h3 : convert_to_int yv with
  | error e => simp only [h3] at h; cases h
  | ok y =>
  simp only [h3] at h
  cases h4 : getField row "games_played" with
  | error e => simp only [h4] at h; cases h
  | ok gv =>
  simp only [h4] at h
  cases h5 : convert_to_int gv with
  | error e => simp only [h5] at h; cases h
  | ok g =>
  simp only [h5] at h
  cases h6 : getField row "opponent" with
  | error e => simp only [h6] at h; cases h
  | ok ov =>
  simp only [h6] at h
  cases h7 : getField row "round" with
  | error e => simp only [h7] at h; cases h
  | ok rv =>
  simp only [h7] at h
  cases h8 : getField row "result" with
  | error e => simp only [h8] at h; cases h
  | ok resv =>
  simp only [h8] at h
  cases h9 : perfNumericFields.mapM (fun c => convert_to_int (rowGetD row c)) with
  | error e => simp only [h9] at h; cases h
  | ok nums =>
  simp only [h9, Except.ok.injEq] at h
  subst h
  exact ⟨tv, yv, y, gv, g, ov, rv, resv, nums, rfl, rfl, h3, rfl, h5, rfl, rfl, rfl,
    rfl, rfl, rfl, by decide⟩

/-- A performance row whose team and result cells are pandas NaN. -/
def perfRowNan : CsvRow :=
  [("team", PyVal.float .nan), ("year", PyVal.int 1950),
   ("games_played", PyVal.int 3), ("opponent", PyVal.str "Carlton"),
   ("round", PyVal.str "4"), ("result", PyVal.float .nan)]

def perfColsNan : List DbVal :=
  [DbVal.str "nan", DbVal.int 1950, DbVal.int 3, DbVal.str "Carlton",
   DbVal.str "4", DbVal.str "nan"] ++ List.replicate 24 DbVal.null

theorem afl_C9_witness :
    ∃ tv yv y gv g ov rv resv nums,
      getField perfRowNan "team" = .ok tv ∧
      getField perfRowNan "year" = .ok yv ∧ convert_to_int yv = .ok y ∧
      getField perfRowNan "games_played" = .ok gv ∧ convert_to_int gv = .ok g ∧
      getField perfRowNan "opponent" = .ok ov ∧
      getField perfRowNan "round" = .ok rv ∧
      getField perfRowNan "result" = .ok resv ∧
      perfNumericFields.mapM (fun c => convert_to_int (rowGetD perfRowNan c)) = .ok nums ∧
      perfColsNan = [DbVal.str (py_str tv), dbOfIntOpt y, dbOfIntOpt g,
              DbVal.str (py_str ov), DbVal.str (py_str rv), DbVal.str (py_str resv)]
             ++ nums.map dbOfIntOpt ∧
      py_str (PyVal.float .nan) = "nan" ∧ DbVal.str "nan" ≠ DbVal.null :=
  afl_C9 perfRowNan perfColsNan (by decide)
